import Mathlib

set_option linter.all false

/-! Shallow embedding of the ptvsd attach coordination layer, covering
ptvsd/_remote.py, ptvsd/attach_server.py and ptvsd/pydevd_hooks.py. -/

/-- Observable steps performed by the injected trace handler in
ptvsd/_remote.py: handle_tracing, debug_current_thread and
TracingWrapper.uninstall. -/
inductive REvent
  | joinStartThread
  | settraceCurrentThread
  | reviveFrames
  | restoreSettraceSlot
  | restoreCallerFTrace
  | restoreGlobalTracefunc
  | releaseReadyLock
  deriving DecidableEq, Repr

/-- Modelled from the spec: lock_release lives in ptvsd._util, which is not
under src. The spec describes the ReadyLock as a binary gate with states Held
and Released, transitioning Held to Released and never back. -/
inductive LockState
  | held
  | released
  deriving DecidableEq, Repr

/-- State visible to the injected handler: whether the TracingWrapper hooks
are still installed, and the ReadyLock state. -/
structure InjState where
  installed : Bool
  lock : LockState
  deriving DecidableEq, Repr

/-- Steps of debug_current_thread in ptvsd/_remote.py lines 71 to 88: join
the start-pydevd thread first, then enable tracing in the current thread. -/
def debugCurrentThreadEvents : List REvent :=
  [.joinStartThread, .settraceCurrentThread]

/-- Steps of TracingWrapper.uninstall in ptvsd/_remote.py lines 200 to 207:
revive the protected frames, restore the settrace slot, restore the caller
frame local hook, restore the thread global trace function. -/
def uninstallEvents : List REvent :=
  [.reviveFrames, .restoreSettraceSlot, .restoreCallerFTrace,
   .restoreGlobalTracefunc]

/-- handle_tracing from ptvsd/_remote.py lines 129 to 141: when is_ready is
false it returns at once with no effect; otherwise it calls the enable
callback, then tracing.uninstall, then releases the ready lock. -/
def handle_tracing (isReady : Bool) (st : InjState) : InjState × List REvent :=
  if isReady then
    ({ installed := false, lock := .released },
      debugCurrentThreadEvents ++ uninstallEvents ++ [.releaseReadyLock])
  else
    (st, [])

/-- C1: when the injected handler fires with is_ready true, handle_tracing
performs, in this order, the enable callback (which joins the engine start
thread before enabling tracing in the current thread), then the full
uninstall of the wrapper hooks, and only after uninstall has completed does
it release the ReadyLock, leaving the lock released and the hooks removed. -/
theorem C1_handle_tracing_order (st : InjState) :
    handle_tracing true st =
      ({ installed := false, lock := .released },
       [.joinStartThread, .settraceCurrentThread, .reviveFrames,
        .restoreSettraceSlot, .restoreCallerFTrace, .restoreGlobalTracefunc,
        .releaseReadyLock]) := rfl

/-- C6: when the injected handler fires with is_ready false, handle_tracing
returns immediately with no side effects: no events are emitted, the hooks
stay installed and the ReadyLock is not released. -/
theorem C6_not_ready_no_effect (st : InjState) :
    handle_tracing false st = (st, []) := rfl

/-- Outcome of one attempt to obtain the next session in the accept loop of
ptvsd/pydevd_hooks.py: a session, a daemon lifecycle error
(DaemonClosedError or DaemonStoppedError), or any other exception. -/
inductive SessionOutcome
  | ok
  | daemonErr
  | otherExc
  deriving DecidableEq, Repr

/-- Result of handle_next in ptvsd/pydevd_hooks.py lines 23 to 35: a session
is returned, a non daemon exception is caught and None is returned, or a
daemon lifecycle error is re-raised. -/
inductive HandleNextResult
  | gotSession
  | caughtNone
  | raisedDaemon
  deriving DecidableEq, Repr

/-- handle_next from ptvsd/pydevd_hooks.py lines 23 to 35. -/
def handle_next : SessionOutcome → HandleNextResult
  | .ok => .gotSession
  | .daemonErr => .raisedDaemon
  | .otherExc => .caughtNone

/-- How serve_forever in ptvsd/pydevd_hooks.py lines 37 to 46 ends on a
finite prefix of session outcomes: still blocked waiting for the next
connection, terminated by a daemon error raised on the initial call outside
the try block, or terminated by a daemon error caught in the loop (break). -/
inductive ServeEnd
  | stillWaiting
  | raisedInitial
  | brokeClean
  deriving DecidableEq, Repr

/-- Loop body of serve_forever: handle_next inside a try that breaks on
daemon lifecycle errors and continues otherwise. -/
def serveLoop : List SessionOutcome → ServeEnd
  | [] => .stillWaiting
  | o :: rest =>
    if handle_next o = .raisedDaemon then .brokeClean else serveLoop rest

/-- serve_forever from ptvsd/pydevd_hooks.py lines 37 to 46: one initial
handle_next outside the try block, then the loop. -/
def serve_forever : List SessionOutcome → ServeEnd
  | [] => .stillWaiting
  | o :: rest =>
    if handle_next o = .raisedDaemon then .raisedInitial else serveLoop rest

theorem serveLoop_stillWaiting_iff (l : List SessionOutcome) :
    serveLoop l = .stillWaiting ↔ SessionOutcome.daemonErr ∉ l := by
  induction l with
  | nil => simp [serveLoop]
  | cons o rest ih =>
    cases o <;> simp [serveLoop, handle_next, ih]

/-- C7: in the accept loop, any exception other than the daemon lifecycle
errors is caught inside handle_next, which returns None so the loop proceeds
to the next iteration; a daemon lifecycle error is re-raised by handle_next;
and serve_forever keeps waiting (never exits) if and only if no daemon
lifecycle error ever occurs, so the loop terminates exactly when such an
error is raised and for no other reason. -/
theorem C7_accept_loop_termination (l : List SessionOutcome) :
    handle_next .otherExc = .caughtNone ∧
    handle_next .daemonErr = .raisedDaemon ∧
    (serve_forever l = .stillWaiting ↔ SessionOutcome.daemonErr ∉ l) := by
  refine ⟨rfl, rfl, ?_⟩
  cases l with
  | nil => simp [serve_forever]
  | cons o rest =>
    cases o <;> simp [serve_forever, handle_next, serveLoop_stillWaiting_iff]

/-- Trace functions that can occupy a hook slot: an engine or user supplied
function (indexed by a number), the global tracefunc wrapper
TracingWrapper._tracefunc, or the local wrapper _local_tracefunc. -/
inductive TFn
  | engineFn (n : Nat)
  | wrapperGlobal
  | wrapperLocal
  deriving DecidableEq, Repr

/-- Which function the module attribute sys.settrace currently refers to:
the real settrace or the monkey patch TracingWrapper._settrace. -/
inductive SettraceSlot
  | origSettrace
  | wrapperSettrace
  deriving DecidableEq, Repr

/-- Hook state of the owner thread: the sys.settrace slot, the trace
function of the owner thread as returned by sys.gettrace, and the f_trace
hook of the caller frame. -/
structure SysState where
  slot : SettraceSlot
  gettrace : Option TFn
  fTrace : Option TFn
  deriving DecidableEq, Repr

/-- Fields of a TracingWrapper instance from ptvsd/_remote.py lines 167 to
174 that bear on the hook state: _orig_settrace, _orig_tracefunc,
_orig_f_tracefunc and whether _revive_frames is set. -/
structure TracingWrapper where
  origSettrace : SettraceSlot
  origTracefunc : Option TFn
  origFTracefunc : Option TFn
  reviveFrames : Bool
  deriving DecidableEq, Repr

/-- TracingWrapper.__init__ captures the current settrace slot, the current
thread trace function and the caller frame f_trace; _revive_frames starts
out as None. -/
def TracingWrapper.init (s : SysState) : TracingWrapper :=
  { origSettrace := s.slot
    origTracefunc := s.gettrace
    origFTracefunc := s.fTrace
    reviveFrames := false }

/-- Calling the function currently bound to sys.settrace from the owner
thread. Through the real settrace this sets the owner thread trace function;
through the monkey patch TracingWrapper._settrace (ptvsd/_remote.py lines
219 to 224) the owner thread branch merely stores the argument in
_orig_tracefunc and does not change any thread trace function. The other
branch of _settrace, taken on non owner threads, delegates to the real
settrace of that thread and does not touch the owner thread state modelled
here. -/
def TracingWrapper.callSettrace (slot : SettraceSlot) (w : TracingWrapper)
    (s : SysState) (f : Option TFn) : TracingWrapper × SysState :=
  match slot with
  | .origSettrace => (w, { s with gettrace := f })
  | .wrapperSettrace => ({ w with origTracefunc := f }, s)

/-- TracingWrapper.install from ptvsd/_remote.py lines 176 to 198: protect
the caller frame, re-capture _orig_settrace, bind sys.settrace to _settrace,
set the caller frame f_trace to the local wrapper, then call sys.settrace
with _tracefunc. Because sys.settrace was just rebound to _settrace and
install runs on the owner thread, that last call stores _tracefunc into
_orig_tracefunc instead of changing the thread trace function. The
settrace_restored context manager from ptvsd/pydevd_hooks.py is modelled as
the identity bracket, which is its effect when the engine has not replaced
the settrace slot. -/
def TracingWrapper.install (w : TracingWrapper) (s : SysState) :
    TracingWrapper × SysState :=
  let w1 : TracingWrapper := { w with reviveFrames := true }
  let w2 : TracingWrapper := { w1 with origSettrace := s.slot }
  let s1 : SysState := { s with slot := .wrapperSettrace }
  let s2 : SysState := { s1 with fTrace := some .wrapperLocal }
  TracingWrapper.callSettrace s2.slot w2 s2 (some .wrapperGlobal)

/-- TracingWrapper.uninstall from ptvsd/_remote.py lines 200 to 207: revive
the protected frames when set (no hook state change), restore the
sys.settrace slot to _orig_settrace, restore the caller frame f_trace to
_orig_f_tracefunc, then call sys.settrace with _orig_tracefunc through the
just restored slot. -/
def TracingWrapper.uninstall (w : TracingWrapper) (s : SysState) :
    TracingWrapper × SysState :=
  let s1 : SysState := { s with slot := w.origSettrace }
  let s2 : SysState := { s1 with fTrace := w.origFTracefunc }
  TracingWrapper.callSettrace s2.slot w s2 w.origTracefunc

/-- Concrete pre-install hook state used in the C5 counterexample: real
settrace slot, no thread trace function, no caller frame hook. -/
def c5InitSys : SysState :=
  { slot := .origSettrace, gettrace := none, fTrace := none }

/-- Designed flow of the wrapper on the owner thread: construct, install,
let the enable step pass the engine trace function to the patched
sys.settrace, then uninstall. -/
def c5Run : TracingWrapper × SysState :=
  let w0 := TracingWrapper.init c5InitSys
  let p1 := TracingWrapper.install w0 c5InitSys
  let p2 := TracingWrapper.callSettrace p1.2.slot p1.1 p1.2
    (some (.engineFn 0))
  TracingWrapper.uninstall p2.1 p2.2

/-- C5 counterexample: in the designed install, enable, uninstall flow the
owner thread global trace hook after uninstall is the engine function that
was passed to the patched sys.settrace, not the value captured before
install, which was none; so uninstall does not restore the exact pre-install
global hook value. -/
theorem C5_global_hook_not_restored :
    c5Run.2.gettrace ≠ c5InitSys.gettrace ∧
    c5Run.2.gettrace = some (.engineFn 0) ∧
    c5InitSys.gettrace = none := by
  decide

/-- C5 amended: after construct, install, one owner thread settrace call
with f, and uninstall, the settrace slot and the caller frame f_trace are
restored to their pre-install values, but the owner thread global trace
function equals f, the last function passed to the patched sys.settrace
(immediately after install that stored value is the wrapper _tracefunc
itself); and uninstall on a wrapper that was never installed, with the hook
state unchanged since construction, leaves the whole hook state unchanged. -/
theorem C5_amended_uninstall_restores (s : SysState) (f : Option TFn)
    (h : s.slot = .origSettrace) :
    (let w0 := TracingWrapper.init s
     let p1 := TracingWrapper.install w0 s
     let p2 := TracingWrapper.callSettrace p1.2.slot p1.1 p1.2 f
     let p3 := TracingWrapper.uninstall p2.1 p2.2
     p3.2.slot = s.slot ∧ p3.2.fTrace = s.fTrace ∧ p3.2.gettrace = f) ∧
    (let q := TracingWrapper.install (TracingWrapper.init s) s
     let r := TracingWrapper.uninstall q.1 q.2
     r.2.slot = s.slot ∧ r.2.fTrace = s.fTrace ∧
     r.2.gettrace = some .wrapperGlobal) ∧
    TracingWrapper.uninstall (TracingWrapper.init s) s =
      (TracingWrapper.init s, s) := by
  refine ⟨?_, ?_, ?_⟩
  · simp [TracingWrapper.init, TracingWrapper.install,
      TracingWrapper.callSettrace, TracingWrapper.uninstall, h]
  · simp [TracingWrapper.init, TracingWrapper.install,
      TracingWrapper.callSettrace, TracingWrapper.uninstall, h]
  · obtain ⟨sl, g, ft⟩ := s
    simp only [SysState.mk.injEq] at h ⊢
    subst h
    simp [TracingWrapper.init, TracingWrapper.uninstall,
      TracingWrapper.callSettrace]

/-- C5 amended witness: the amended statement instantiated at the concrete
pre-install state with the engine function 3 passed to the patched
settrace. -/
theorem C5_amended_uninstall_restores_witness :
    c5InitSys.slot = .origSettrace ∧
    TracingWrapper.uninstall (TracingWrapper.init c5InitSys) c5InitSys =
      (TracingWrapper.init c5InitSys, c5InitSys) :=
  ⟨by decide,
   (C5_amended_uninstall_restores c5InitSys (some (.engineFn 3))
     (by decide)).2.2⟩

/-- Observable events of the ptvsd/attach_server.py module operations. -/
inductive AEvent
  | setEnabledFlag
  | clearedAttached
  | daemonStarted
  | injectorInstalled
  | engineThreadStarted
  | storedDebugCurrentThread
  | enabledCurrentThread (tid : Nat)
  | addedPending (tid : Nat)
  | waitedAttached (timeout : Option Nat)
  | suspendAllRequested
  deriving DecidableEq, Repr

/-- Module level state of ptvsd/attach_server.py: _enabled, the _attached
event, whether _debug_current_thread has been stored, and the
_pending_threads set (as a duplicate free list of thread ids). -/
structure AttachState where
  enabled : Bool
  attached : Bool
  hasDebugCurrentThread : Bool
  pending : List Nat
  deriving DecidableEq, Repr

/-- Initial module state of ptvsd/attach_server.py. -/
def initAttachState : AttachState :=
  { enabled := false, attached := false, hasDebugCurrentThread := false,
    pending := [] }

/-- enable_attach from ptvsd/attach_server.py lines 74 to 101: return at
once when _enabled is already true; otherwise set _enabled, clear _attached,
run the remote setup and store the debug current thread callable, then
either enable the current thread (when the engine start wait succeeds within
the timeout) or record the calling thread as pending. The setupFails
parameter models the remote setup raising before anything is started, for
example Address.as_server rejecting an invalid address; Modelled from the
spec: ptvsd.socket.Address and ptvsd.daemon are not under src, so the
InvalidAddress failure of the address parse and the provision of the wait
and debug current thread callables by the remote layer follow the spec
(sections 4.1, 4.6 and 7). The third component of the result records whether
the call raised. -/
def attach_enable_attach (s : AttachState) (tid : Nat) (setupFails : Bool)
    (engineReadyInTime : Bool) : AttachState × List AEvent × Bool :=
  if s.enabled then (s, [], false)
  else if setupFails then
    ({ s with enabled := true, attached := false },
     [.setEnabledFlag, .clearedAttached], true)
  else if engineReadyInTime then
    ({ s with
        enabled := true
        attached := false
        hasDebugCurrentThread := true },
     [.setEnabledFlag, .clearedAttached, .daemonStarted, .injectorInstalled,
      .engineThreadStarted, .storedDebugCurrentThread,
      .enabledCurrentThread tid], false)
  else
    ({ s with
        enabled := true
        attached := false
        hasDebugCurrentThread := true
        pending := tid :: s.pending },
     [.setEnabledFlag, .clearedAttached, .daemonStarted, .injectorInstalled,
      .engineThreadStarted, .storedDebugCurrentThread,
      .addedPending tid], false)

/-- Running a sequence of enable_attach calls, each given the calling thread
id, the setup failure flag and the engine ready in time flag, collecting all
events. -/
def runEnableCalls : AttachState → List (Nat × Bool × Bool) →
    AttachState × List AEvent
  | s, [] => (s, [])
  | s, (tid, f, e) :: rest =>
    let r := attach_enable_attach s tid f e
    let rr := runEnableCalls r.1 rest
    (rr.1, r.2.1 ++ rr.2)

theorem attach_enable_attach_noop (s : AttachState) (tid : Nat) (f e : Bool)
    (h : s.enabled = true) : attach_enable_attach s tid f e = (s, [], false) := by
  simp [attach_enable_attach, h]

theorem runEnableCalls_enabled (calls : List (Nat × Bool × Bool))
    (s : AttachState) (h : s.enabled = true) :
    runEnableCalls s calls = (s, []) := by
  induction calls with
  | nil => rfl
  | cons c rest ih =>
    obtain ⟨tid, f, e⟩ := c
    simp [runEnableCalls, attach_enable_attach_noop s tid f e h, ih]

/-- C3: enable_attach is idempotent: every call made while _enabled is
already true returns immediately with no events and no state change and no
exception; and over any sequence of calls starting from the initial module
state whose first call completes the setup, exactly one daemon is started
and exactly one injector hook is installed in the whole event log. -/
theorem C3_enable_attach_idempotent (s : AttachState) (tid : Nat)
    (f e : Bool) (h : s.enabled = true) (tid0 : Nat) (e0 : Bool)
    (calls : List (Nat × Bool × Bool)) :
    attach_enable_attach s tid f e = (s, [], false) ∧
    (runEnableCalls initAttachState
        ((tid0, false, e0) :: calls)).2.count .daemonStarted = 1 ∧
    (runEnableCalls initAttachState
        ((tid0, false, e0) :: calls)).2.count .injectorInstalled = 1 := by
  refine ⟨attach_enable_attach_noop s tid f e h, ?_, ?_⟩ <;>
  · cases e0 <;>
      simp [runEnableCalls, attach_enable_attach, initAttachState,
        runEnableCalls_enabled, List.count_cons]

/-- C3 witness: the idempotence theorem applied at a concrete enabled state
and a concrete two call sequence. -/
theorem C3_enable_attach_idempotent_witness :
    attach_enable_attach
        { enabled := true, attached := false, hasDebugCurrentThread := false,
          pending := [] } 5 false true =
      ({ enabled := true, attached := false, hasDebugCurrentThread := false,
          pending := [] }, [], false) ∧
    (runEnableCalls initAttachState
        ((7, false, true) :: [(8, false, true)])).2.count .daemonStarted = 1 ∧
    (runEnableCalls initAttachState
        ((7, false, true) :: [(8, false, true)])).2.count
        .injectorInstalled = 1 :=
  C3_enable_attach_idempotent
    { enabled := true, attached := false, hasDebugCurrentThread := false,
      pending := [] } 5 false true rfl 7 true [(8, false, true)]

/-- wait_for_attach from ptvsd/attach_server.py lines 25 to 43: wait on the
_attached event bounded by the given timeout, then, when the calling thread
id is in _pending_threads, remove it and invoke the stored debug current
thread callable before returning. -/
def attach_wait_for_attach (s : AttachState) (tid : Nat)
    (timeout : Option Nat) : AttachState × List AEvent :=
  if tid ∈ s.pending then
    ({ s with pending := s.pending.erase tid },
     [.waitedAttached timeout, .enabledCurrentThread tid])
  else
    (s, [.waitedAttached timeout])

/-- C4: wait_for_attach first waits on the attach notification with exactly
the timeout given by the caller (unbounded when none); when the calling
thread id is recorded in the pending set it removes that id and performs the
enabling step of that thread before returning, and otherwise it returns
with the state unchanged and no enabling step. -/
theorem C4_wait_for_attach (s : AttachState) (tid : Nat)
    (timeout : Option Nat) :
    (attach_wait_for_attach s tid timeout).2.head? =
      some (.waitedAttached timeout) ∧
    (tid ∈ s.pending →
      attach_wait_for_attach s tid timeout =
        ({ s with pending := s.pending.erase tid },
         [.waitedAttached timeout, .enabledCurrentThread tid])) ∧
    (tid ∉ s.pending →
      attach_wait_for_attach s tid timeout =
        (s, [.waitedAttached timeout])) := by
  unfold attach_wait_for_attach
  by_cases h : tid ∈ s.pending <;> simp [h]

/-- C4 witness: wait_for_attach at a concrete state whose pending set holds
the calling thread id 7, with no timeout. -/
theorem C4_wait_for_attach_witness :
    attach_wait_for_attach
        { enabled := true, attached := true, hasDebugCurrentThread := true,
          pending := [7] } 7 none =
      ({ enabled := true, attached := true, hasDebugCurrentThread := true,
          pending := ([7] : List Nat).erase 7 },
       [.waitedAttached none, .enabledCurrentThread 7]) :=
  (C4_wait_for_attach
    { enabled := true, attached := true, hasDebugCurrentThread := true,
      pending := [7] } 7 none).2.1 (by decide)

/-- break_into_debugger from ptvsd/attach_server.py lines 112 to 125: return
at once when the _attached event is not set or _enabled is false, otherwise
request the engine to suspend all threads. -/
def attach_break_into_debugger (s : AttachState) : AttachState × List AEvent :=
  if !s.attached || !s.enabled then (s, [])
  else (s, [.suspendAllRequested])

/-- C9: break_into_debugger is a guarded no-op: whenever the attached event
is not set or attach has not been enabled it returns without any event and
without changing the module state, and the suspend all request is issued
exactly when both the attached event is set and the enabled flag is true. -/
theorem C9_break_into_debugger_guard (s : AttachState) :
    ((s.attached = false ∨ s.enabled = false) →
      attach_break_into_debugger s = (s, [])) ∧
    (attach_break_into_debugger s).1 = s ∧
    ((attach_break_into_debugger s).2 = [.suspendAllRequested] ↔
      (s.attached = true ∧ s.enabled = true)) := by
  unfold attach_break_into_debugger
  rcases hA : s.attached <;> rcases hE : s.enabled <;> simp

/-- C9 witness: break_into_debugger at a concrete state where the attached
event is not set. -/
theorem C9_break_into_debugger_guard_witness :
    attach_break_into_debugger
        { enabled := true, attached := false, hasDebugCurrentThread := true,
          pending := [] } =
      ({ enabled := true, attached := false, hasDebugCurrentThread := true,
          pending := [] }, []) :=
  (C9_break_into_debugger_guard
    { enabled := true, attached := false, hasDebugCurrentThread := true,
      pending := [] }).1 (Or.inl rfl)

/-- C10: starting from a state where attach is not yet enabled, a call whose
setup raises sets the _enabled flag and clears _attached before anything is
started (the event log of the failed call holds only those two steps and in
particular no daemon start, injector install or engine thread start), the
call raises, _enabled remains true afterward, and every subsequent call with
any arguments returns immediately as a no-op, so a failed enable is never
retried; in a successful call the _enabled flag is likewise set before the
daemon is started. -/
theorem C10_failed_enable_never_retried (s : AttachState) (tid : Nat)
    (e : Bool) (h : s.enabled = false) (tid2 : Nat) (f2 e2 : Bool) :
    (attach_enable_attach s tid true e).1.enabled = true ∧
    (attach_enable_attach s tid true e).2.1 =
      [.setEnabledFlag, .clearedAttached] ∧
    (attach_enable_attach s tid true e).2.2 = true ∧
    attach_enable_attach (attach_enable_attach s tid true e).1 tid2 f2 e2 =
      ((attach_enable_attach s tid true e).1, [], false) ∧
    (attach_enable_attach s tid false e).2.1.take 3 =
      [.setEnabledFlag, .clearedAttached, .daemonStarted] := by
  refine ⟨?_, ?_, ?_, ?_, ?_⟩
  · simp [attach_enable_attach, h]
  · simp [attach_enable_attach, h]
  · simp [attach_enable_attach, h]
  · simp [attach_enable_attach, h]
  · cases e <;> simp [attach_enable_attach, h]

/-- C10 witness: the failed enable theorem applied at the initial module
state with concrete arguments. -/
theorem C10_failed_enable_never_retried_witness :
    (attach_enable_attach initAttachState 3 true true).1.enabled = true ∧
    (attach_enable_attach initAttachState 3 true true).2.1 =
      [.setEnabledFlag, .clearedAttached] ∧
    (attach_enable_attach initAttachState 3 true true).2.2 = true ∧
    attach_enable_attach (attach_enable_attach initAttachState 3 true true).1
        4 false true =
      ((attach_enable_attach initAttachState 3 true true).1, [], false) ∧
    (attach_enable_attach initAttachState 3 false true).2.1.take 3 =
      [.setEnabledFlag, .clearedAttached, .daemonStarted] :=
  C10_failed_enable_never_retried initAttachState 3 true rfl 4 false true

/-- Steps of the handle_tracing body in ptvsd/_remote.py lines 129 to 141:
the is_ready check, the enable callback, the uninstall call and the lock
release. No step consults any re-entry flag, because the source defines
none. -/
inductive BodyStep
  | checkReady
  | enableStep
  | uninstallStep
  | releaseStep
  deriving DecidableEq, Repr

/-- The body of handle_tracing as a step program. -/
def handleTracingBody : List BodyStep :=
  [.checkReady, .enableStep, .uninstallStep, .releaseStep]

/-- Two overlapping activations of handle_tracing, as happens when the
installed hooks fire again (for example through the global _tracefunc from
another thread) before the first activation reaches uninstall; enables
counts how many times the enable callback has run. -/
structure TwoFirings where
  first : List BodyStep
  second : List BodyStep
  enables : Nat
  deriving DecidableEq, Repr

/-- One step of a single activation: checkReady returns early when is_ready
is false and otherwise proceeds; every later step proceeds unconditionally
since the source keeps no guard state. -/
def stepActivation (ready : Bool) :
    List BodyStep × Nat → List BodyStep × Nat
  | ([], n) => ([], n)
  | (.checkReady :: rest, n) => if ready then (rest, n) else ([], n)
  | (.enableStep :: rest, n) => (rest, n + 1)
  | (.uninstallStep :: rest, n) => (rest, n)
  | (.releaseStep :: rest, n) => (rest, n)

/-- Interleaved execution of the two activations under a schedule: true
picks a step of the first activation, false a step of the second. -/
def runInterleaved (ready : Bool) : List Bool → TwoFirings → TwoFirings
  | [], st => st
  | pick :: sched, st =>
    if pick then
      let p := stepActivation ready (st.first, st.enables)
      runInterleaved ready sched { st with first := p.1, enables := p.2 }
    else
      let p := stepActivation ready (st.second, st.enables)
      runInterleaved ready sched { st with second := p.1, enables := p.2 }

/-- Both activations start at the top of the body with no enable done yet. -/
def c2Start : TwoFirings :=
  { first := handleTracingBody, second := handleTracingBody, enables := 0 }

/-- Schedule in which the second firing passes the is_ready check before the
first firing reaches uninstall. -/
def c2Schedule : List Bool :=
  [true, false, true, false, true, false, true, false]

/-- C2 counterexample: two firings of the installed hooks that overlap
before uninstall completes, with is_ready returning true, each execute the
body past the is_ready check, so the enable step runs twice; no guard
prevents the re-entry, refuting the claim that the body executes at most
once in this situation. -/
theorem C2_no_reentry_guard_counterexample :
    ¬ (runInterleaved true c2Schedule c2Start).enables ≤ 1 := by
  decide

/-- Hook level state for non overlapping firings: whether the wrapper hooks
are still installed and how many times the enable callback has run. -/
structure SeqInj where
  installed : Bool
  enables : Nat
  deriving DecidableEq, Repr

/-- One complete, non overlapping firing of the installed hooks: the handler
runs only while the hooks are installed, and a run with is_ready true
executes the body once and uninstalls the hooks, so later firings find them
removed. -/
def seqFire (s : SeqInj) (ready : Bool) : SeqInj :=
  if s.installed then
    if ready then { installed := false, enables := s.enables + 1 } else s
  else s

/-- Folding a sequence of complete firings, each with its is_ready answer. -/
def seqFires (l : List Bool) (s : SeqInj) : SeqInj :=
  l.foldl seqFire s

theorem seqFires_le (l : List Bool) (s : SeqInj) :
    (seqFires l s).enables ≤ s.enables + (if s.installed then 1 else 0) := by
  induction l generalizing s with
  | nil => cases s.installed <;> simp [seqFires]
  | cons r rest ih =>
    have step : seqFires (r :: rest) s = seqFires rest (seqFire s r) := rfl
    rw [step]
    refine le_trans (ih (seqFire s r)) ?_
    unfold seqFire
    rcases hI : s.installed <;> rcases r <;> simp [hI] <;> omega

/-- C2 amended: handle_tracing has no re-entry guard; the body past the
is_ready check runs at most once only because uninstall removes the
injected hooks, which suffices when firings do not overlap: over any
sequence of complete, non overlapping firings of the initially installed
hooks, the enable step runs at most once, while overlapping firings can
each run the body, as the counterexample shows. -/
theorem C2_amended_at_most_once_sequential (l : List Bool) :
    (seqFires l { installed := true, enables := 0 }).enables ≤ 1 := by
  have := seqFires_le l { installed := true, enables := 0 }
  simpa using this

/-- Attribute names that matter to the FrameWrapper model: f_trace, the
internal _frame slot, and any other attribute (indexed by a number). -/
inductive AttrName
  | fTrace
  | frameRef
  | other (code : Nat)
  deriving DecidableEq, Repr

/-- A frame object: its f_trace hook and its remaining attributes, the
latter abstracted as a list of numbered fields. -/
structure Frame where
  f_trace : Option Nat
  attrs : List (Nat × Nat)
  deriving DecidableEq, Repr

/-- Values that attribute access can produce in the model. -/
inductive PyVal
  | vnat (n : Nat)
  | vframe (fr : Frame)
  | vnone
  deriving DecidableEq, Repr

/-- Attribute read on a plain frame: f_trace gives its hook, _frame is not
an attribute of a frame (AttributeError, modelled as none), and other
attributes read from the attribute list. -/
def Frame.getattrModel (fr : Frame) : AttrName → Option PyVal
  | .fTrace =>
    some (match fr.f_trace with | some n => .vnat n | none => .vnone)
  | .frameRef => none
  | .other c => (fr.attrs.lookup c).map .vnat

/-- Attribute write on a plain frame in the model: f_trace stores the value,
other attributes are prepended to the attribute list. -/
def Frame.setattrModel (fr : Frame) (name : AttrName) (v : PyVal) : Frame :=
  match name, v with
  | .fTrace, .vnat n => { fr with f_trace := some n }
  | .fTrace, _ => { fr with f_trace := none }
  | .other c, .vnat n => { fr with attrs := (c, n) :: fr.attrs }
  | _, _ => fr

/-- Attribute read on a FrameWrapper instance from ptvsd/_remote.py lines
233 to 249, with the wrapper instance dictionary holding at most the _frame
entry. Normal lookup consults the instance dictionary; on a miss, the
__getattr__ of the class evaluates self._frame, itself an attribute access
on the wrapper, and forwards the read to the frame. The fuel argument bounds
the recursion depth; none models a non normal completion, that is
unbounded recursion (RecursionError) or an AttributeError. -/
def FrameWrapper.getattrModel : Nat → Option Frame → AttrName → Option PyVal
  | 0, _, _ => none
  | fuel + 1, inst, name =>
    match inst, name with
    | some fr, .frameRef => some (.vframe fr)
    | _, _ =>
      match FrameWrapper.getattrModel fuel inst .frameRef with
      | some (.vframe fr) => Frame.getattrModel fr name
      | _ => none

/-- Attribute write on a FrameWrapper instance: the __setattr__ of the class
returns at once for f_trace and otherwise forwards the write to self._frame,
which is first read through the wrapper lookup. The wrapper instance
dictionary is never written, since even the forwarded write targets the
frame. The result is the updated instance dictionary on success and none on
a non normal completion. -/
def FrameWrapper.setattrModel (fuel : Nat) (inst : Option Frame)
    (name : AttrName) (v : PyVal) : Option (Option Frame) :=
  if name = .fTrace then some inst
  else
    match FrameWrapper.getattrModel fuel inst .frameRef with
    | some (.vframe fr) => some (some (Frame.setattrModel fr name v))
    | _ => none

/-- Construction of a FrameWrapper from ptvsd/_remote.py lines 235 to 241:
__new__ yields an instance with an empty instance dictionary and __init__
executes the assignment of frame to self._frame, which goes through the
overridden __setattr__. -/
def FrameWrapper.construct (fuel : Nat) (fr : Frame) : Option (Option Frame) :=
  FrameWrapper.setattrModel fuel none .frameRef (.vframe fr)

theorem frameWrapper_getattr_unset (fuel : Nat) :
    FrameWrapper.getattrModel fuel none .frameRef = none := by
  induction fuel with
  | zero => rfl
  | succ n ih => simp [FrameWrapper.getattrModel, ih]

/-- C8: constructing FrameWrapper(f) never succeeds at any recursion depth:
the assignment of self._frame in __init__ is routed through the overridden
__setattr__, which evaluates self._frame before it has been bound, so
__getattr__ recurses on itself without end and the construction ends in a
RecursionError instead of producing a proxy. -/
theorem C8_frameWrapper_construct_diverges (fuel : Nat) (fr : Frame) :
    FrameWrapper.construct fuel fr = none := by
  simp [FrameWrapper.construct, FrameWrapper.setattrModel,
    frameWrapper_getattr_unset]
